import Mathlib

set_option maxHeartbeats 1000000

namespace SketchReview

/-! Shallow embedding of the sketch-review serverless handlers.

JavaScript strings are modelled as Lean `String` (a list of Unicode scalar
values); the UTF-16 code-unit vs scalar distinction only matters for
astral-plane characters, which no property here depends on.  `undefined`
or absent fields are `Option.none`; JS string falsiness (`undefined`,
`null`, `''`) is the `falsy` predicate below. -/

/-- JS falsiness for an optional string field: absent or the empty string. -/
def falsy : Option String → Bool
  | none => true
  | some s => s == ""

/-- JS `a || b` for string values: `b` when `a` is absent or empty. -/
def jsOrStr (a : Option String) (b : String) : String :=
  match a with
  | none => b
  | some s => if s == "" then b else s

/-- UTF-8 encoding of one Unicode scalar value as its list of byte values,
matching what `Buffer.from(s, 'utf8')` produces per character. -/
def utf8EncodeChar (c : Char) : List Nat :=
  let n := c.toNat
  if n < 128 then [n]
  else if n < 2048 then [192 + n / 64, 128 + n % 64]
  else if n < 65536 then [224 + n / 4096, 128 + n / 64 % 64, 128 + n % 64]
  else [240 + n / 262144, 128 + n / 4096 % 64, 128 + n / 64 % 64, 128 + n % 64]

/-- UTF-8 byte sequence of a character list (`Buffer.from(s, 'utf8')`). -/
def utf8Encode (s : List Char) : List Nat :=
  (s.map utf8EncodeChar).flatten

/-- Error message of Node's `crypto.timingSafeEqual` when the two buffers
have different byte lengths. -/
def timingSafeEqualMsg : String :=
  "ERR_CRYPTO_TIMING_SAFE_EQUAL: Input buffers must have the same byte length"

/-- Node `crypto.timingSafeEqual` on byte buffers: throws (modelled as
`Except.error`) when the lengths differ, otherwise reports byte equality. -/
def timingSafeEqual (a b : List Nat) : Except String Bool :=
  if a.length = b.length then Except.ok (a == b) else Except.error timingSafeEqualMsg

/-- JS `String.prototype.padEnd(n, c)` (on our scalar-sequence model). -/
def jsPadEnd (s : List Char) (n : Nat) (c : Char) : List Char :=
  s ++ List.replicate (n - s.length) c

/-- Type of the platform HMAC-SHA256 primitive, abstracted: key and message
in, lowercase-hex digest out (`crypto.createHmac('sha256', k).update(m).digest('hex')`). -/
def HmacFun : Type := String → String → String

/-- A character of a lowercase hex digest: `0`-`9` or `a`-`f`. -/
def isHexChar (c : Char) : Bool :=
  (48 ≤ c.toNat && c.toNat ≤ 57) || (97 ≤ c.toNat && c.toNat ≤ 102)

/-- Interface property of the HMAC-SHA256 hex digest: 64 characters, each a
lowercase hex digit.  Any real SHA-256 hex digest satisfies this. -/
def HexDigest (hmac : HmacFun) : Prop :=
  ∀ k m, (hmac k m).data.length = 64 ∧ ∀ c ∈ (hmac k m).data, isHexChar c = true

/-- `validateToken(dealId, token)` from `src/api/upload-po.js` lines 18-30
(identical in `src/unnamed/part_002` lines 61-73): fail closed when the
secret or the token is missing/empty, otherwise compare the first 16 hex
characters of `HMAC-SHA256(secret, dealId)` against the supplied token
truncated to 16 characters and right-padded with `'0'`, both UTF-8 encoded,
with `crypto.timingSafeEqual` (which throws on unequal byte lengths). -/
def validateToken (hmac : HmacFun) (secret : Option String) (dealId : String)
    (token : Option String) : Except String Bool :=
  if falsy secret || falsy token then Except.ok false
  else
    let expected := ((hmac (secret.getD "") dealId).data).take 16
    timingSafeEqual (utf8Encode expected)
      (utf8Encode (jsPadEnd (((token.getD "").data).take 16) 16 '0'))

/-- Modelled from the spec: the conceptual `issue(dealId)` of the Token
Authority (spec section 4.1; not exposed as an endpoint in the source):
the hex HMAC-SHA256 of the deal id under the shared secret, truncated to
its first 16 hex characters. -/
def issueToken (hmac : HmacFun) (secret dealId : String) : String :=
  String.mk (((hmac secret dealId).data).take 16)

/-- A supplied token whose first 16 characters are not all ASCII: sixteen
copies of U+00E9, each of which UTF-8 encodes to two bytes. -/
def badToken : String := String.mk (List.replicate 16 'é')

/-- One line item after numeric coercion (`src/api/deal.js` lines 106-113):
`price = parseFloat(..) || 0`, `quantity = parseInt(..) || 1`,
`amount = parseFloat(..) || 0`.  Only the numeric fields participate in the
total; JS numbers are modelled as rationals. -/
structure LineItem where
  price : Rat
  quantity : Rat
  amount : Rat
  deriving DecidableEq

/-- JS `a || b` on (non-NaN) numbers: `b` when `a` is zero, else `a`. -/
def jsOrNum (a b : Rat) : Rat := if a = 0 then b else a

/-- Total computation from `src/api/deal.js` line 119 (and
`src/unnamed/part_002` line 189):
`lineItems.reduce((sum, item) => sum + (item.amount || item.price * item.quantity), 0)`. -/
def computeTotal (items : List LineItem) : Rat :=
  items.foldl (fun sum it => sum + jsOrNum it.amount (it.price * it.quantity)) 0

/-- The per-item value as the spec words it: the amount when it is a
non-zero number, otherwise price times quantity. -/
def specItemValue (it : LineItem) : Rat :=
  if it.amount = 0 then it.price * it.quantity else it.amount

/-- One entry of a deal-to-contact association list: the related contact's
object id and the labels carried by `associationTypes` on that edge. -/
structure Assoc where
  toObjectId : Nat
  labels : List String
  deriving DecidableEq

/-- `(r.associationTypes || []).some(a => a.label === L)`. -/
def hasLabel (label : String) (r : Assoc) : Bool :=
  r.labels.any (fun a => a == label)

/-- Payer selection (`src/unnamed/part_002` lines 149-151, `src/api/upload-po.js`
lines 93-95): the first association entry carrying the label `Payer`. -/
def findPayer (assocs : List Assoc) : Option Assoc :=
  assocs.find? (hasLabel "Payer")

/-- Primary selection (`src/unnamed/part_002` lines 152-154, `src/unnamed/part_000`
lines 110-112): the first entry carrying `Primary Contact`, with JS `||`
falling back to the first entry of the list when none does. -/
def findPrimary (assocs : List Assoc) : Option Assoc :=
  (assocs.find? (hasLabel "Primary Contact")).orElse (fun _ => assocs.head?)

/-- First counterexample list for order independence as literally claimed:
two distinct contacts both labelled `Payer`, no `Primary Contact` label. -/
def cexA : List Assoc := [⟨1, ["Payer"]⟩, ⟨2, ["Payer"]⟩]

/-- The transposition of `cexA`. -/
def cexB : List Assoc := [⟨2, ["Payer"]⟩, ⟨1, ["Payer"]⟩]

/-- The spec's concrete role-resolution example. -/
def exRoles : List Assoc := [⟨1, []⟩, ⟨2, ["Primary Contact"]⟩, ⟨3, ["Payer"]⟩]

/-- A nontrivial permutation of `exRoles`. -/
def exRolesPerm : List Assoc := [⟨3, ["Payer"]⟩, ⟨1, []⟩, ⟨2, ["Primary Contact"]⟩]

/-- Environment configuration read by the write endpoint:
`process.env.PO_QUOTE_SECRET` and `process.env.HUBSPOT_TOKEN`. -/
structure Env where
  poQuoteSecret : Option String
  hubspotToken : Option String

/-- The request to the write endpoint: HTTP method and the JSON body
fields destructured at `src/api/upload-po.js` line 39; absent fields are
`none`. -/
structure Req where
  method : String
  dealId : Option String
  token : Option String
  fileName : Option String
  fileType : Option String
  fileData : Option String

/-- Properties returned by a contact-detail fetch. -/
structure ContactProps where
  email : Option String
  firstname : Option String
  lastname : Option String

/-- Outcomes of the external calls one request may make, fixed up front so
the handler is a pure function of them.  The note, patch and notify
outcomes are recorded here but never influence the handler's response, as
in the source (`engRes.ok` and `patchRes.ok` only gate a log line). -/
structure World where
  dealFetchOk : Bool
  dealname : Option String
  poQuoteTitle : Option String
  contactsAssocOk : Bool
  contactsAssocs : List Assoc
  contactFetch : Nat → Option ContactProps
  uploadOk : Bool
  uploadId : Nat
  uploadUrl : String
  uploadErrStatus : Nat
  uploadErrText : String
  noteOk : Bool
  patchOk : Bool
  notifyOk : Bool

/-- Body of the `po-received-notification` webhook call
(`src/api/upload-po.js` line 210). -/
structure NotifyPayload where
  dealId : String
  dealName : String
  fileName : String
  dealUrl : String
  fileUrl : String
  contactEmail : String
  contactName : String
  ccEmail : String
  ccName : String
  quoteTitle : String
  deriving DecidableEq

/-- One external call of the write pipeline, in order of attempt. -/
inductive Step
  | fetchDeal
  | fetchContactsAssoc
  | fetchContact (id : Nat)
  | upload (hsFileName : String)
  | note
  | patch
  | notify (payload : NotifyPayload)
  | reportErr
  deriving DecidableEq

/-- Response body shapes of the write endpoint. -/
inductive RBody
  | empty
  | err (msg : String)
  | errDetails (msg details : String)
  | success (fileUrl : String)
  deriving DecidableEq

/-- An HTTP response paired with the trace of external calls the handler
made before responding. -/
structure Res where
  status : Nat
  calls : List Step
  body : RBody
  deriving DecidableEq

/-- The note-creation, deal-patch and notification-webhook steps — the
ones claim C6 says must not be attempted after a failed upload. -/
def isWriteStep : Step → Bool
  | Step.note => true
  | Step.patch => true
  | Step.notify _ => true
  | _ => false

/-- `const maxSize = 3 * 1024 * 1024` (`src/api/upload-po.js` line 53). -/
def MAX_SIZE : Nat := 3 * 1024 * 1024

/-- `['application/pdf', 'image/png', 'image/jpeg']`. -/
def allowedTypes : List String := ["application/pdf", "image/png", "image/jpeg"]

/-- `fileData.includes(',') ? fileData.split(',')[1] : fileData`. -/
def stripDataUrl (s : String) : String :=
  if s.contains ',' then (s.splitOn ",").getD 1 "" else s

/-- `fileName.split('.').pop() || 'pdf'`. -/
def extOf (fileName : String) : String :=
  let e := (fileName.splitOn ".").getLastD ""
  if e == "" then "pdf" else e

/-- The HubSpot deal URL interpolated at `src/api/upload-po.js` line 205. -/
def dealUrlFor (dealId : String) : String :=
  "https://app.hubspot.com/contacts/46092307/record/0-3/" ++ dealId

/-- Trimmed display name built from firstname and lastname. -/
def contactFullName (c : ContactProps) : String :=
  ((c.firstname.getD "") ++ " " ++ (c.lastname.getD "")).trim

/-- Contact-detail fetch for an optionally selected association entry. -/
def contactDetails (w : World) (o : Option Assoc) : Option ContactProps :=
  match o with
  | none => none
  | some a => w.contactFetch a.toObjectId

/-- Recipient strings for the notification payload. -/
structure Recipients where
  contactEmail : String
  contactName : String
  ccEmail : String
  ccName : String

/-- Recipient resolution of `src/api/upload-po.js` lines 78-136: Payer is
the main recipient; the Primary contact becomes the main recipient when no
payer email was obtained, or the CC when distinct from the payer's email. -/
def resolveRecipients (w : World) : Recipients :=
  if !w.contactsAssocOk then ⟨"", "", "", ""⟩
  else
    let payerC := contactDetails w (findPayer w.contactsAssocs)
    let primaryC := contactDetails w (findPrimary w.contactsAssocs)
    let contactEmail :=
      match payerC with
      | some p => p.email.getD ""
      | none => ""
    let contactName :=
      match payerC with
      | some p => contactFullName p
      | none => ""
    match primaryC with
    | none => ⟨contactEmail, contactName, "", ""⟩
    | some c =>
      let primaryEmail := c.email.getD ""
      let primaryName := contactFullName c
      if contactEmail == "" then ⟨primaryEmail, primaryName, "", ""⟩
      else if primaryEmail != "" && primaryEmail != contactEmail then
        ⟨contactEmail, contactName, primaryEmail, primaryName⟩
      else ⟨contactEmail, contactName, "", ""⟩

/-- The contact-detail fetch a selected association entry gives rise to. -/
def fetchSteps (o : Option Assoc) : List Step :=
  match o with
  | some a => [Step.fetchContact a.toObjectId]
  | none => []

/-- External calls of the contact-resolution phase: the association list
fetch, then a detail fetch for the payer entry and for the primary entry
when selected (`src/api/upload-po.js` lines 84, 101-106, 113-119). -/
def recipientSteps (w : World) : List Step :=
  Step.fetchContactsAssoc ::
    (if w.contactsAssocOk then
      fetchSteps (findPayer w.contactsAssocs) ++ fetchSteps (findPrimary w.contactsAssocs)
    else [])

/-- User-facing message of the catch-all 500 response. -/
def uploadFailMsg : String :=
  "Upload failed. Please try again or email your PO to support@showoffinc.com."

/-- User-facing message of the size-limit rejection. -/
def sizeLimitMsg : String :=
  "File is too large (max 3MB). Please email your PO to support@showoffinc.com."

/-- The try block of the write handler (`src/api/upload-po.js` lines
66-222): fetch the deal (fatal on failure), resolve recipients
(best-effort), upload (a failure throws into the catch, which reports the
error and answers 500), then note, patch and notification — whose failures
never change the 200 response. -/
def uploadTry (w : World) (dealId fileName : String) : Res :=
  if !w.dealFetchOk then ⟨404, [Step.fetchDeal], RBody.err "Deal not found"⟩
  else
    let dealName := jsOrStr w.dealname dealId
    let quoteTitle := jsOrStr w.poQuoteTitle dealName
    let r := resolveRecipients w
    let hsFileName := dealName ++ "_PO." ++ extOf fileName
    let pre := Step.fetchDeal :: recipientSteps w ++ [Step.upload hsFileName]
    if !w.uploadOk then
      ⟨500, pre ++ [Step.reportErr],
        RBody.errDetails uploadFailMsg
          ("HubSpot file upload failed: " ++ toString w.uploadErrStatus ++ " "
            ++ String.mk (w.uploadErrText.data.take 300))⟩
    else
      ⟨200,
        pre ++ [Step.note, Step.patch,
          Step.notify ⟨dealId, dealName, fileName, dealUrlFor dealId, w.uploadUrl,
            r.contactEmail, r.contactName, r.ccEmail, r.ccName, quoteTitle⟩],
        RBody.success w.uploadUrl⟩

/-- The write endpoint handler of `src/api/upload-po.js` lines 32-223.
`decode` abstracts `Buffer.from(raw, 'base64')` (base64 decoding to
bytes).  An `Except.error` result models an exception escaping the
handler; the only site that can throw outside the try block is
`validateToken` (via `crypto.timingSafeEqual`). -/
def uploadHandler (hmac : HmacFun) (decode : String → List Nat) (env : Env)
    (req : Req) (w : World) : Except String Res :=
  if req.method == "OPTIONS" then Except.ok ⟨200, [], RBody.empty⟩
  else if !(req.method == "POST") then Except.ok ⟨405, [], RBody.err "POST only"⟩
  else if falsy req.dealId || falsy req.token then
    Except.ok ⟨400, [], RBody.err "dealId and token are required"⟩
  else
    match validateToken hmac env.poQuoteSecret (req.dealId.getD "") req.token with
    | Except.error e => Except.error e
    | Except.ok tokOk =>
      if !tokOk then Except.ok ⟨403, [], RBody.err "Invalid or expired link"⟩
      else if falsy req.fileData || falsy req.fileName then
        Except.ok ⟨400, [], RBody.err "fileName and fileData are required"⟩
      else if !(falsy req.fileType) && !(allowedTypes.contains (req.fileType.getD "")) then
        Except.ok ⟨400, [], RBody.err "File type not allowed. Please upload a PDF, PNG, or JPG."⟩
      else
        let fileBuffer := decode (stripDataUrl (req.fileData.getD ""))
        if fileBuffer.length > MAX_SIZE then
          Except.ok ⟨400, [], RBody.err sizeLimitMsg⟩
        else if falsy env.hubspotToken then
          Except.ok ⟨500, [], RBody.err "HubSpot token not configured"⟩
        else Except.ok (uploadTry w (req.dealId.getD "") (req.fileName.getD ""))

/-- A concrete hex-digest function standing in for HMAC-SHA256 in
witnesses: it satisfies the `HexDigest` interface just as the real
primitive does. -/
def hmac0 : HmacFun := fun _ _ => String.mk (List.replicate 64 '0')

/-- Base64 decoder stand-in for witnesses: three bytes. -/
def decode0 : String → List Nat := fun _ => [65, 66, 67]

/-- Decoder whose output is exactly the size cap. -/
def decodeExact : String → List Nat := fun _ => List.replicate MAX_SIZE 0

/-- Decoder whose output is one byte over the size cap. -/
def decodeBig : String → List Nat := fun _ => List.replicate (MAX_SIZE + 1) 0

/-- Fully configured environment for witnesses. -/
def env0 : Env := ⟨some "s", some "h"⟩

/-- Environment with the shared token-derivation secret unset. -/
def envNoSecret : Env := ⟨none, some "h"⟩

/-- Environment with the CRM bearer token unset. -/
def envNoHsToken : Env := ⟨some "s", none⟩

/-- The token the Token Authority would issue for deal "1" under `hmac0`. -/
def tok0 : String := issueToken hmac0 "s" "1"

/-- A fully valid POST request for witnesses. -/
def req0 : Req := ⟨"POST", some "1", some tok0, some "po.pdf", some "application/pdf", some "QUJD"⟩

/-- World in which the upload call fails (non-success status). -/
def w0 : World :=
  ⟨true, some "Acme", none, true, exRoles,
    fun _ => some ⟨some "ann@acme.test", some "Ann", some "Lee"⟩,
    false, 0, "", 502, "gateway error", true, true, true⟩

/-- World in which the upload succeeds but note and patch both fail. -/
def w1 : World :=
  ⟨true, some "Acme", none, true, exRoles,
    fun _ => some ⟨some "ann@acme.test", some "Ann", some "Lee"⟩,
    true, 77, "https://files.example/po.pdf", 0, "", false, false, true⟩

/-- Helper: UTF-8 encoding is one byte per character on ASCII-only input. -/
theorem utf8Encode_length_of_ascii (s : List Char) (h : ∀ c ∈ s, c.toNat < 128) :
    (utf8Encode s).length = s.length := by
  induction s with
  | nil => rfl
  | cons c t ih =>
    have hc : c.toNat < 128 := h c (by simp)
    have ht : ∀ x ∈ t, x.toNat < 128 := fun x hx => h x (by simp [hx])
    simp only [utf8Encode, List.map_cons, List.flatten_cons, List.length_append,
      List.length_cons]
    rw [show (utf8EncodeChar c).length = 1 by simp [utf8EncodeChar, hc]]
    have hrec := ih ht
    simp only [utf8Encode] at hrec
    omega

/-- Helper: hex digit characters are ASCII. -/
theorem isHexChar_ascii (c : Char) (h : isHexChar c = true) : c.toNat < 128 := by
  simp only [isHexChar, Bool.or_eq_true, Bool.and_eq_true, decide_eq_true_eq] at h
  omega

/-- C1: Token round-trip.  For every deal id and every fixed non-empty
secret, verifying the issued token succeeds: with any hex-digest HMAC,
`validateToken` accepts `issueToken`, because the issued token is exactly
the 16-character expected prefix, ASCII, so truncation and padding leave it
unchanged and the two 16-byte buffers are equal. -/
theorem token_roundtrip (hmac : HmacFun) (hhex : HexDigest hmac)
    (secret : String) (hsec : secret ≠ "") (dealId : String) :
    validateToken hmac (some secret) dealId
      (some (issueToken hmac secret dealId)) = Except.ok true := by
  obtain ⟨hlen, hchars⟩ := hhex secret dealId
  have hislen : (issueToken hmac secret dealId).data.length = 16 := by
    simp [issueToken, List.length_take, hlen]
  have hine : issueToken hmac secret dealId ≠ "" := by
    intro h
    rw [h] at hislen
    simp at hislen
  have hsf : falsy (some secret) = false := by
    simp [falsy]
    exact hsec
  have hif : falsy (some (issueToken hmac secret dealId)) = false := by
    simp [falsy]
    exact hine
  unfold validateToken
  rw [hsf, hif]
  simp only [Bool.or_self, Bool.false_or, if_false, Option.getD_some]
  have hdata : (issueToken hmac secret dealId).data = ((hmac secret dealId).data).take 16 := rfl
  rw [hdata, List.take_take]
  norm_num
  have htlen : (((hmac secret dealId).data).take 16).length = 16 := by
    simp [List.length_take, hlen]
  have hpad : jsPadEnd (((hmac secret dealId).data).take 16) 16 '0'
      = ((hmac secret dealId).data).take 16 := by
    simp [jsPadEnd, htlen]
  rw [hpad]
  simp [timingSafeEqual]

/-- C2: Fail-closed verification.  `validateToken` returns `false` (without
any comparison, hence without throwing) whenever the shared secret is
unset, and whenever the supplied token is absent or empty — for every deal
id, every supplied token value, and every HMAC. -/
theorem verify_fail_closed :
    ∀ (hmac : HmacFun) (dealId : String) (secret token : Option String),
      validateToken hmac none dealId token = Except.ok false ∧
      validateToken hmac secret dealId none = Except.ok false ∧
      validateToken hmac secret dealId (some "") = Except.ok false := by
  intro hmac dealId secret token
  refine ⟨?_, ?_, ?_⟩
  · simp [validateToken, falsy]
  · cases secret <;> simp [validateToken, falsy]
  · cases secret <;> simp [validateToken, falsy]

/-- C10: evaluation of the code at the failing input.  For any hex-digest
HMAC, with the secret set and the token non-empty, a supplied token whose
first 16 characters are non-ASCII makes `validateToken` throw rather than
return a boolean: the expected buffer has 16 bytes while the supplied one
has 32, so `crypto.timingSafeEqual` raises the length-mismatch error. -/
theorem validateToken_throws_nonascii (hmac : HmacFun) (hhex : HexDigest hmac) :
    validateToken hmac (some "s") "1" (some badToken) =
      Except.error timingSafeEqualMsg := by
  obtain ⟨hlen, hchars⟩ := hhex "s" "1"
  have h1 : falsy (some "s") = false := by decide
  have h2 : falsy (some badToken) = false := by decide
  have hexp : (utf8Encode (((hmac "s" "1").data).take 16)).length = 16 := by
    rw [utf8Encode_length_of_ascii]
    · simp [List.length_take, hlen]
    · intro c hc
      exact isHexChar_ascii c (hchars c (List.take_subset 16 _ hc))
  have htok : utf8Encode (jsPadEnd ((badToken.data).take 16) 16 '0')
      = utf8Encode (List.replicate 16 'é') := by decide
  unfold validateToken
  rw [h1, h2]
  simp only [Bool.or_self, Bool.false_or, if_false, Option.getD_some]
  rw [htok]
  unfold timingSafeEqual
  rw [hexp, show (utf8Encode (List.replicate 16 'é')).length = 32 from by decide]
  norm_num

/-- Helper: a left fold that adds an image of each element is the sum of
the mapped list. -/
theorem foldl_add_eq_sum (f : LineItem → Rat) :
    ∀ (l : List LineItem) (a : Rat),
      l.foldl (fun s it => s + f it) a = a + (l.map f).sum := by
  intro l
  induction l with
  | nil => intro a; simp
  | cons x t ih =>
    intro a
    simp only [List.foldl_cons, List.map_cons, List.sum_cons, ih]
    ring

/-- C3: the response total is the sum over items of the per-item
OR-fallback value (amount when non-zero, else price times quantity), and on
the line items of the spec's concrete example it is 27. -/
theorem total_per_item :
    (∀ items : List LineItem, computeTotal items = (items.map specItemValue).sum) ∧
    computeTotal [⟨10, 2, 0⟩, ⟨5, 1, 7⟩] = 27 := by
  constructor
  · intro items
    have hfun : (fun it : LineItem => jsOrNum it.amount (it.price * it.quantity))
        = specItemValue := by
      funext it
      rfl
    unfold computeTotal
    rw [foldl_add_eq_sum, hfun, zero_add]
  · norm_num [computeTotal, jsOrNum]

/-- Helper: `find?` is permutation-invariant when at most one element
satisfies the predicate. -/
theorem find?_perm_of_countP_le_one {α : Type} (p : α → Bool) {l l' : List α}
    (h : l.Perm l') : l.countP p ≤ 1 → l.find? p = l'.find? p := by
  induction h with
  | nil => intro _; rfl
  | cons x h ih =>
    intro hc
    by_cases hp : p x
    · simp [List.find?_cons, hp]
    · simp only [List.countP_cons, hp, if_false, Nat.add_zero] at hc
      simp only [List.find?_cons, hp, cond_false]
      exact ih hc
  | swap x y l =>
    intro hc
    by_cases hx : p x <;> by_cases hy : p y
    · exfalso
      simp [List.countP_cons, hx, hy] at hc
    all_goals simp [List.find?_cons, hx, hy]
  | trans h1 h2 ih1 ih2 =>
    intro hc
    rw [ih1 hc, ih2 (by rwa [← h1.countP_eq])]

/-- Helper: when exactly one element satisfies the predicate, `find?`
returns something. -/
theorem find?_isSome_of_countP_one {α : Type} (p : α → Bool) (l : List α)
    (h : l.countP p = 1) : (l.find? p).isSome := by
  rw [List.find?_isSome]
  have hpos : 0 < l.countP p := by omega
  exact (List.countP_pos_iff).mp hpos

/-- C4 (amended): role resolution is order-independent provided at most one
entry carries the label `Payer` and exactly one carries `Primary Contact`:
any two permutations of the association list select the same Payer and the
same Primary. -/
theorem role_resolution_order_indep (l l' : List Assoc) (hperm : l.Perm l')
    (hpay : l.countP (hasLabel "Payer") ≤ 1)
    (hpri : l.countP (hasLabel "Primary Contact") = 1) :
    findPayer l = findPayer l' ∧ findPrimary l = findPrimary l' := by
  constructor
  · exact find?_perm_of_countP_le_one _ hperm hpay
  · have h1 : l.find? (hasLabel "Primary Contact")
        = l'.find? (hasLabel "Primary Contact") :=
      find?_perm_of_countP_le_one _ hperm (by omega)
    obtain ⟨a, ha⟩ :=
      Option.isSome_iff_exists.mp (find?_isSome_of_countP_one _ l hpri)
    have ha' : l'.find? (hasLabel "Primary Contact") = some a := h1 ▸ ha
    unfold findPrimary
    rw [ha, ha']
    rfl

/-- C4 counterexample: the claim as stated fails — `cexA` and `cexB` are
permutations of the same association list, yet the code selects contact 1
as both Payer and Primary from one order and contact 2 from the other. -/
theorem role_resolution_order_indep_cex :
    cexA.Perm cexB ∧
      ¬(findPayer cexA = findPayer cexB ∧ findPrimary cexA = findPrimary cexB) := by
  constructor
  · exact List.Perm.swap _ _ _
  · decide

/-- C4 witness: on the spec's example (unique labels) the amended theorem
applies, and Payer resolves to id 3, Primary to id 2. -/
theorem role_resolution_order_indep_witness :
    (findPayer exRoles = findPayer exRolesPerm ∧
      findPrimary exRoles = findPrimary exRolesPerm) ∧
    (findPayer exRoles).map Assoc.toObjectId = some 3 ∧
    (findPrimary exRoles).map Assoc.toObjectId = some 2 :=
  ⟨role_resolution_order_indep exRoles exRolesPerm (by decide) (by decide) (by decide),
    by decide, by decide⟩

/-- C5: when no entry of a non-empty association list carries the label
`Primary Contact`, the first entry of the list is selected as Primary. -/
theorem fallback_primary (l : List Assoc) (hne : l ≠ [])
    (hnone : ∀ r ∈ l, hasLabel "Primary Contact" r = false) :
    ∃ a, l.head? = some a ∧ findPrimary l = some a := by
  cases l with
  | nil => exact absurd rfl hne
  | cons x t =>
    refine ⟨x, rfl, ?_⟩
    have hfind : (x :: t).find? (hasLabel "Primary Contact") = none := by
      rw [List.find?_eq_none]
      intro a ha
      simp [hnone a ha]
    unfold findPrimary
    rw [hfind]
    rfl

/-- C5 witness: the single unlabeled contact with id 5 resolves as Primary. -/
theorem fallback_primary_witness :
    (∃ a, ([⟨5, []⟩] : List Assoc).head? = some a ∧
      findPrimary [⟨5, []⟩] = some a) ∧
    (findPrimary [⟨5, []⟩]).map Assoc.toObjectId = some 5 :=
  ⟨fallback_primary [⟨5, []⟩] (by decide) (by decide), by decide⟩

/-- Helper: the concrete stand-in digest function satisfies the hex-digest
interface of HMAC-SHA256. -/
theorem hmac0_hexdigest : HexDigest hmac0 := by
  intro k m
  constructor
  · simp only [hmac0]
    decide
  · simp only [hmac0]
    decide

/-- C1 witness: the round-trip at a concrete secret and deal id. -/
theorem token_roundtrip_witness :
    validateToken hmac0 (some "s") "1" (some (issueToken hmac0 "s" "1")) = Except.ok true :=
  token_roundtrip hmac0 hmac0_hexdigest "s" (by decide) "1"

/-- C10 witness: the throw at the concrete failing input. -/
theorem validateToken_throws_nonascii_witness :
    validateToken hmac0 (some "s") "1" (some badToken) = Except.error timingSafeEqualMsg :=
  validateToken_throws_nonascii hmac0 hmac0_hexdigest

/-- Helper: once the request passes method, field, token and type checks,
the handler is the size check followed by the configuration check followed
by the try block. -/
theorem uploadHandler_valid_request (hmac : HmacFun) (decode : String → List Nat)
    (env : Env) (req : Req) (w : World)
    (hm : req.method = "POST")
    (hd : falsy req.dealId = false)
    (ht : falsy req.token = false)
    (hv : validateToken hmac env.poQuoteSecret (req.dealId.getD "") req.token = Except.ok true)
    (hf : falsy req.fileData = false)
    (hn : falsy req.fileName = false)
    (hty : falsy req.fileType = true ∨ allowedTypes.contains (req.fileType.getD "") = true) :
    uploadHandler hmac decode env req w =
      (if (decode (stripDataUrl (req.fileData.getD ""))).length > MAX_SIZE then
        Except.ok ⟨400, [], RBody.err sizeLimitMsg⟩
      else if falsy env.hubspotToken then
        Except.ok ⟨500, [], RBody.err "HubSpot token not configured"⟩
      else Except.ok (uploadTry w (req.dealId.getD "") (req.fileName.getD ""))) := by
  have h1 : (("POST" : String) == "OPTIONS") = false := by decide
  have h2 : (("POST" : String) == "POST") = true := by decide
  have hcond : (!(falsy req.fileType) && !(allowedTypes.contains (req.fileType.getD ""))) = false := by
    rcases hty with hty | hty
    · simp only [hty, Bool.not_true, Bool.false_and]
    · simp only [hty, Bool.not_true, Bool.and_false]
  unfold uploadHandler
  rw [hm, hv]
  simp [h1, h2, hd, ht, hf, hn, hcond]
  intro hft hmem
  rcases hty with hty | hty
  · rw [hty] at hft
    simp at hft
  · exact absurd (by simpa using hty) hmem

/-- Helper: the contact-resolution phase only performs fetches, never a
note, patch or notification call. -/
theorem recipientSteps_no_write (w : World) :
    (recipientSteps w).all (fun s => !isWriteStep s) = true := by
  unfold recipientSteps
  cases hA : w.contactsAssocOk
  · simp [isWriteStep]
  · cases hp : findPayer w.contactsAssocs <;> cases hq : findPrimary w.contactsAssocs <;>
      simp [fetchSteps, isWriteStep]

/-- C6: when the upload call returns a non-success status, the handler
answers HTTP 500 (with the upload-failure message) and its call trace
contains no note creation, no deal patch, and no notification webhook
call.  The trace does contain the best-effort error-alert report, which is
the separate diagnostic sink. -/
theorem upload_failure_fatal (hmac : HmacFun) (decode : String → List Nat)
    (env : Env) (req : Req) (w : World)
    (hm : req.method = "POST")
    (hd : falsy req.dealId = false)
    (ht : falsy req.token = false)
    (hv : validateToken hmac env.poQuoteSecret (req.dealId.getD "") req.token = Except.ok true)
    (hf : falsy req.fileData = false)
    (hn : falsy req.fileName = false)
    (hty : falsy req.fileType = true ∨ allowedTypes.contains (req.fileType.getD "") = true)
    (hsz : (decode (stripDataUrl (req.fileData.getD ""))).length ≤ MAX_SIZE)
    (hcfg : falsy env.hubspotToken = false)
    (hdeal : w.dealFetchOk = true)
    (hup : w.uploadOk = false) :
    ∃ t d, uploadHandler hmac decode env req w
        = Except.ok ⟨500, t, RBody.errDetails uploadFailMsg d⟩ ∧
      t.all (fun s => !isWriteStep s) = true := by
  rw [uploadHandler_valid_request hmac decode env req w hm hd ht hv hf hn hty]
  rw [if_neg (by omega), if_neg (by simp [hcfg])]
  unfold uploadTry
  simp only [hdeal, hup, Bool.not_true, Bool.not_false, if_false, if_true, ite_true, ite_false]
  refine ⟨_, _, rfl, ?_⟩
  have hrec := recipientSteps_no_write w
  simp only [isWriteStep] at hrec
  simp only [List.all_cons, List.all_append, List.all_nil, isWriteStep, hrec,
    Bool.not_false, Bool.and_true, Bool.true_and]

/-- C7: when the upload succeeds, the handler answers HTTP 200 with the
uploaded file's URL.  The world's `noteOk`, `patchOk` and `notifyOk`
fields are unconstrained here, so the statement covers note failure, patch
failure, both together, and every other combination — none of them changes
the success response. -/
theorem write_degradation_nonfatal (hmac : HmacFun) (decode : String → List Nat)
    (env : Env) (req : Req) (w : World)
    (hm : req.method = "POST")
    (hd : falsy req.dealId = false)
    (ht : falsy req.token = false)
    (hv : validateToken hmac env.poQuoteSecret (req.dealId.getD "") req.token = Except.ok true)
    (hf : falsy req.fileData = false)
    (hn : falsy req.fileName = false)
    (hty : falsy req.fileType = true ∨ allowedTypes.contains (req.fileType.getD "") = true)
    (hsz : (decode (stripDataUrl (req.fileData.getD ""))).length ≤ MAX_SIZE)
    (hcfg : falsy env.hubspotToken = false)
    (hdeal : w.dealFetchOk = true)
    (hup : w.uploadOk = true) :
    ∃ t, uploadHandler hmac decode env req w
      = Except.ok ⟨200, t, RBody.success w.uploadUrl⟩ := by
  rw [uploadHandler_valid_request hmac decode env req w hm hd ht hv hf hn hty]
  rw [if_neg (by omega), if_neg (by simp [hcfg])]
  unfold uploadTry
  simp only [hdeal, hup, Bool.not_true, Bool.not_false, if_false, if_true, ite_true, ite_false]
  exact ⟨_, rfl⟩

/-- C6 witness: a concrete valid submission whose upload fails. -/
theorem upload_failure_fatal_witness :
    ∃ t d, uploadHandler hmac0 decode0 env0 req0 w0
        = Except.ok ⟨500, t, RBody.errDetails uploadFailMsg d⟩ ∧
      t.all (fun s => !isWriteStep s) = true :=
  upload_failure_fatal hmac0 decode0 env0 req0 w0 rfl rfl rfl rfl rfl rfl
    (Or.inr (by decide)) (by decide) rfl rfl rfl

/-- C7 witness: a concrete submission whose upload succeeds while both the
note creation and the deal patch fail (`w1.noteOk = false`,
`w1.patchOk = false`). -/
theorem write_degradation_nonfatal_witness :
    ∃ t, uploadHandler hmac0 decode0 env0 req0 w1
      = Except.ok ⟨200, t, RBody.success w1.uploadUrl⟩ :=
  write_degradation_nonfatal hmac0 decode0 env0 req0 w1 rfl rfl rfl rfl rfl rfl
    (Or.inr (by decide)) (by decide) rfl rfl rfl

/-- C8: a decoded payload of exactly `3 * 1024 * 1024` bytes passes the
size check (the response is never the size-limit rejection), while any
payload strictly larger is rejected with HTTP 400, the size-limit message,
and an empty call trace — before any external call. -/
theorem size_boundary (hmac : HmacFun) (decode : String → List Nat)
    (env : Env) (req : Req) (w : World)
    (hm : req.method = "POST")
    (hd : falsy req.dealId = false)
    (ht : falsy req.token = false)
    (hv : validateToken hmac env.poQuoteSecret (req.dealId.getD "") req.token = Except.ok true)
    (hf : falsy req.fileData = false)
    (hn : falsy req.fileName = false)
    (hty : falsy req.fileType = true ∨ allowedTypes.contains (req.fileType.getD "") = true) :
    ((decode (stripDataUrl (req.fileData.getD ""))).length = MAX_SIZE →
      ∃ r, uploadHandler hmac decode env req w = Except.ok r ∧
        r.body ≠ RBody.err sizeLimitMsg) ∧
    (MAX_SIZE < (decode (stripDataUrl (req.fileData.getD ""))).length →
      uploadHandler hmac decode env req w = Except.ok ⟨400, [], RBody.err sizeLimitMsg⟩) := by
  have hred := uploadHandler_valid_request hmac decode env req w hm hd ht hv hf hn hty
  constructor
  · intro hlen
    rw [hred, if_neg (by omega)]
    by_cases hcfg : falsy env.hubspotToken = true
    · rw [if_pos hcfg]
      exact ⟨_, rfl, by decide⟩
    · rw [if_neg hcfg]
      refine ⟨_, rfl, ?_⟩
      unfold uploadTry
      by_cases hdeal : w.dealFetchOk
      · by_cases hup : w.uploadOk
        · simp [hdeal, hup]
        · simp [hdeal, hup]
      · simp [hdeal]
        decide
  · intro hbig
    rw [hred, if_pos (by omega)]

/-- C8 witness: at a concrete valid request, a decoder producing exactly
the cap is not size-rejected, and a decoder producing one byte more is
rejected with HTTP 400 and no external call. -/
theorem size_boundary_witness :
    (∃ r, uploadHandler hmac0 decodeExact env0 req0 w1 = Except.ok r ∧
      r.body ≠ RBody.err sizeLimitMsg) ∧
    uploadHandler hmac0 decodeBig env0 req0 w1
      = Except.ok ⟨400, [], RBody.err sizeLimitMsg⟩ :=
  ⟨(size_boundary hmac0 decodeExact env0 req0 w1 rfl rfl rfl rfl rfl rfl
      (Or.inr (by decide))).1 (by simp [decodeExact]),
    (size_boundary hmac0 decodeBig env0 req0 w1 rfl rfl rfl rfl rfl rfl
      (Or.inr (by decide))).2 (by simp [decodeBig])⟩

/-- C9 (amended): with the shared token-derivation secret unset the write
endpoint answers HTTP 403 (fail-closed token rejection), not 500, before
any external call; with the CRM bearer token unset it answers HTTP 500
before any external call.  Both conclusions carry an empty call trace. -/
theorem config_fail_fast (hmac : HmacFun) (decode : String → List Nat)
    (env : Env) (req : Req) (w : World)
    (hm : req.method = "POST")
    (hd : falsy req.dealId = false)
    (ht : falsy req.token = false) :
    (env.poQuoteSecret = none →
      uploadHandler hmac decode env req w
        = Except.ok ⟨403, [], RBody.err "Invalid or expired link"⟩) ∧
    (validateToken hmac env.poQuoteSecret (req.dealId.getD "") req.token = Except.ok true →
      falsy req.fileData = false → falsy req.fileName = false →
      (falsy req.fileType = true ∨ allowedTypes.contains (req.fileType.getD "") = true) →
      (decode (stripDataUrl (req.fileData.getD ""))).length ≤ MAX_SIZE →
      falsy env.hubspotToken = true →
      uploadHandler hmac decode env req w
        = Except.ok ⟨500, [], RBody.err "HubSpot token not configured"⟩) := by
  have h1 : (("POST" : String) == "OPTIONS") = false := by decide
  have h2 : (("POST" : String) == "POST") = true := by decide
  constructor
  · intro hsec
    have hvfalse : validateToken hmac env.poQuoteSecret (req.dealId.getD "") req.token
        = Except.ok false := by
      rw [hsec]
      simp [validateToken, falsy]
    unfold uploadHandler
    rw [hm, hvfalse]
    simp [h1, h2, hd, ht]
  · intro hv hf hn hty hsz hcfg
    rw [uploadHandler_valid_request hmac decode env req w hm hd ht hv hf hn hty]
    rw [if_neg (by omega), if_pos hcfg]

/-- C9 counterexample: with the shared secret missing (and everything else
valid and configured) the endpoint answers HTTP 403, not the claimed 500. -/
theorem config_fail_fast_cex :
    envNoSecret.poQuoteSecret = none ∧
    uploadHandler hmac0 decode0 envNoSecret req0 w0
      = Except.ok ⟨403, [], RBody.err "Invalid or expired link"⟩ :=
  ⟨rfl, rfl⟩

/-- C9 witness: the amended behavior at concrete inputs — missing secret
gives 403, missing bearer token gives 500, each with no external call. -/
theorem config_fail_fast_witness :
    uploadHandler hmac0 decode0 envNoSecret req0 w0
        = Except.ok ⟨403, [], RBody.err "Invalid or expired link"⟩ ∧
    uploadHandler hmac0 decode0 envNoHsToken req0 w0
        = Except.ok ⟨500, [], RBody.err "HubSpot token not configured"⟩ :=
  ⟨(config_fail_fast hmac0 decode0 envNoSecret req0 w0 rfl rfl rfl).1 rfl,
    (config_fail_fast hmac0 decode0 envNoHsToken req0 w0 rfl rfl rfl).2 rfl rfl rfl
      (Or.inr (by decide)) (by decide) rfl⟩

end SketchReview
